import Mathlib

/-!
Verification development for the TaskMeister worker-assignment engine
(`taskmeister.py`).

The development is a shallow embedding of the persisted store and of the
engine operations of the source file: the schema creation and migration
(`DatabaseManager._create_tables`, `DatabaseManager._migrate_database`,
`DatabaseManager.initialize_database`), the worker/house repository
operations, the availability resolver
(`TaskMeisterApp._get_assigned_houses_for_date`,
`TaskMeisterApp._refresh_houses`), the assignment orchestrator
(`TaskMeisterApp._send_assignments`,
`TaskMeisterApp._save_assignments_to_db`), the history query service
(`TaskMeisterApp._load_history_data`, `TaskMeisterApp._apply_history_filter`,
`TaskMeisterApp._export_history`) and the notification body builder
(`EmailService._create_email_body`).

SQLite rows are modelled as Lean structures; a nullable column is an
`Option` field.  Python strings are Lean `String`/`List Char`; the few
standard-library string primitives the source relies on (`str.lower`,
substring `in`, `str.split`, `"sep".join`, SQL text ordering, `DATE(...)`)
are given explicit structural definitions below so that every definition in
this file is executable by the kernel.
-/

namespace TaskMeister

/-! ### String and list primitives -/

/-- Byte-wise (code-point) ordering on character lists. Models the ordering
SQLite uses for `ORDER BY <text column> ASC` on the ASCII text this
application stores. -/
def charListLe : List Char → List Char → Bool
  | [], _ => true
  | _ :: _, [] => false
  | c :: cs, d :: ds => c.toNat < d.toNat || (c.toNat == d.toNat && charListLe cs ds)

/-- String comparison used for `ORDER BY name ASC` / `ORDER BY date_assigned DESC`. -/
def strLe (a b : String) : Bool := charListLe a.toList b.toList

/-- Insert an element into a sorted list (auxiliary step of `sortBy`). -/
def insertSorted {α : Type} (le : α → α → Bool) (a : α) : List α → List α
  | [] => [a]
  | b :: l => if le a b then a :: b :: l else b :: insertSorted le a l

/-- Stable insertion sort. Models an SQL `ORDER BY` clause: the result is
the same multiset ordered by `le`. -/
def sortBy {α : Type} (le : α → α → Bool) : List α → List α
  | [] => []
  | a :: l => insertSorted le a (sortBy le l)

/-- Models the Python substring test `needle in hay` on character lists. -/
def containsSub : List Char → List Char → Bool
  | n, [] => n.isEmpty
  | n, c :: rest => n.isPrefixOf (c :: rest) || containsSub n rest

/-- Models Python `str.lower` (ASCII case folding; all data this
application stores is ASCII). -/
def pyLower (l : List Char) : List Char := l.map Char.toLower

/-- Models Python `str.split(sep)` for a one-character separator. -/
def splitOnChar (sep : Char) : List Char → List (List Char)
  | [] => [[]]
  | c :: rest =>
    let r := splitOnChar sep rest
    if c == sep then [] :: r
    else
      match r with
      | [] => [[c]]
      | g :: gs => (c :: g) :: gs

/-- Digit-string to number (the strings are checked to be all digits
before this is applied). -/
def digitsToNat (l : List Char) : Nat := l.foldl (fun acc c => acc * 10 + (c.toNat - 48)) 0

/-- True when every character is a decimal digit. -/
def allDigits (l : List Char) : Bool := l.all (fun c => c.isDigit)

/-- Models Python `"sep".join(parts)`. -/
def joinWith (sep : String) : List String → String
  | [] => ""
  | [a] => a
  | a :: b :: rest => a ++ sep ++ joinWith sep (b :: rest)

/-! ### Data model (the three tables of `_create_tables`) -/

/-- Row of the `workers` table. -/
structure Worker where
  id : Nat
  name : String
  email : String
deriving DecidableEq, Repr

/-- Row of the `houses` table. -/
structure House where
  id : Nat
  name : String
deriving DecidableEq, Repr

/-- Row of the `assignment_history` table. `note`, `assignment_date` and
`email_sent` are nullable columns (`assignment_date` and `email_sent` are
the two columns added by the migration; on a pre-migration store their
field value is irrelevant and `none` plays the role of SQL NULL). -/
structure AssignmentRecord where
  id : Nat
  worker_id : Nat
  house_id : Nat
  quantity : Int
  note : Option String
  date_assigned : String
  assignment_date : Option String
  email_sent : Option Bool
deriving DecidableEq, Repr

/-- The persisted SQLite database: the three tables, their existence flags
(`CREATE TABLE IF NOT EXISTS`), the live column list of
`assignment_history` (what `PRAGMA table_info` reports), and the
AUTOINCREMENT counters. -/
structure Store where
  workersExists : Bool
  housesExists : Bool
  historyExists : Bool
  historyCols : List String
  workers : List Worker
  houses : List House
  history : List AssignmentRecord
  nextWorkerId : Nat
  nextHouseId : Nat
  nextHistoryId : Nat
deriving DecidableEq, Repr

/-! ### Schema store (`DatabaseManager`) -/

/-- Columns of `assignment_history` as first created by `_create_tables`
(lines 93-104): the migration columns are not part of the CREATE statement. -/
def baseHistoryCols : List String :=
  ["id", "worker_id", "house_id", "quantity", "note", "date_assigned"]

/-- Column list of a fully migrated `assignment_history` table. -/
def migratedCols : List String := baseHistoryCols ++ ["assignment_date", "email_sent"]

/-- The first statement of `DatabaseManager._create_tables` (lines 76-82):
`CREATE TABLE IF NOT EXISTS workers`.  A table that already exists is left
untouched; a missing table is created empty (AUTOINCREMENT starts at 1). -/
def createWorkersTable (s : Store) : Store :=
  if s.workersExists then s
  else { s with workersExists := true, workers := [], nextWorkerId := 1 }

/-- The second statement of `_create_tables` (lines 85-90):
`CREATE TABLE IF NOT EXISTS houses`. -/
def createHousesTable (s : Store) : Store :=
  if s.housesExists then s
  else { s with housesExists := true, houses := [], nextHouseId := 1 }

/-- The third statement of `_create_tables` (lines 93-104):
`CREATE TABLE IF NOT EXISTS assignment_history` with the base columns. -/
def createHistoryTable (s : Store) : Store :=
  if s.historyExists then s
  else { s with historyExists := true, historyCols := baseHistoryCols,
                history := [], nextHistoryId := 1 }

/-- Embedding of `DatabaseManager._create_tables` (lines 73-104): the three
`CREATE TABLE IF NOT EXISTS` statements in source order. -/
def createTables (s : Store) : Store :=
  createHistoryTable (createHousesTable (createWorkersTable s))

/-- Models SQLite `DATE(date_assigned)` on the `CURRENT_TIMESTAMP` strings
(`YYYY-MM-DD HH:MM:SS`) this application stores: the date component is the
first ten characters. -/
def dateOf (ts : String) : String := String.mk (ts.toList.take 10)

/-- The statement `ALTER TABLE assignment_history ADD COLUMN
assignment_date DATE` (line 113): the column is appended with no default,
so every existing row gets NULL. -/
def alterAddAssignmentDate (s : Store) : Store :=
  { s with historyCols := s.historyCols ++ ["assignment_date"],
           history := s.history.map
             (fun (r : AssignmentRecord) => { r with assignment_date := none }) }

/-- The statement `UPDATE assignment_history SET assignment_date =
DATE(date_assigned) WHERE assignment_date IS NULL` (lines 114-118). -/
def updateBackfillAssignmentDate (s : Store) : Store :=
  { s with history := s.history.map (fun (r : AssignmentRecord) =>
      if r.assignment_date = none then { r with assignment_date := some (dateOf r.date_assigned) }
      else r) }

/-- The statement `ALTER TABLE assignment_history ADD COLUMN email_sent
BOOLEAN DEFAULT 1` (line 123): SQLite gives every existing row the constant
default, so all rows read 1. -/
def alterAddEmailSent (s : Store) : Store :=
  { s with historyCols := s.historyCols ++ ["email_sent"],
           history := s.history.map
             (fun (r : AssignmentRecord) => { r with email_sent := some true }) }

/-- The statement `UPDATE assignment_history SET email_sent = 1 WHERE
email_sent IS NULL` (line 124); after the ALTER with its default this finds
nothing. -/
def updateEmailSent (s : Store) : Store :=
  { s with history := s.history.map (fun (r : AssignmentRecord) =>
      if r.email_sent = none then { r with email_sent := some true } else r) }

/-- Embedding of `DatabaseManager._migrate_database` (lines 106-125) as a
pure store function: the column list is read once (`PRAGMA table_info`; an
absent table reports no columns) and the missing-column statement pairs are
applied in source order.  This is the net effect of a migration in which
every statement succeeds. -/
def migrateDatabase (s : Store) : Store :=
  let cols := if s.historyExists then s.historyCols else []
  let s1 :=
    if "assignment_date" ∈ cols then s
    else updateBackfillAssignmentDate (alterAddAssignmentDate s)
  if "email_sent" ∈ cols then s1
  else updateEmailSent (alterAddEmailSent s1)

/-- State of the single sqlite3 connection of `initialize_database`:
the committed database, the view including uncommitted work, and whether an
implicit transaction is open.  When no transaction is open the two store
components coincide. -/
structure Conn where
  committed : Store
  pending : Store
  txnOpen : Bool
deriving DecidableEq, Repr

/-- Execution of a DDL statement (CREATE, ALTER) by the Python sqlite3
module (3.6+): DDL never opens an implicit transaction, so with no
transaction open it runs in autocommit mode and its effect is durable at
once; with a transaction open (left by an earlier DML statement) it joins
that transaction. -/
def execDDL (c : Conn) (f : Store → Store) : Conn :=
  if c.txnOpen then { c with pending := f c.pending }
  else { committed := f c.pending, pending := f c.pending, txnOpen := false }

/-- Execution of a DML statement (UPDATE): the module opens an implicit
transaction if none is open, and the effect stays uncommitted until
`conn.commit()`. -/
def execDML (c : Conn) (f : Store → Store) : Conn :=
  { c with pending := f c.pending, txnOpen := true }

/-- Models `conn.commit()`: the open transaction, if any, becomes durable. -/
def commitConn (c : Conn) : Conn :=
  { committed := c.pending, pending := c.pending, txnOpen := false }

/-- Models `conn.rollback()`: only the open transaction is undone;
statements that ran in autocommit mode stay committed. -/
def rollbackConn (c : Conn) : Conn :=
  { committed := c.committed, pending := c.committed, txnOpen := false }

/-- Execution state while `initialize_database` runs its statements:
the connection, a countdown to an injected `sqlite3.Error` (`none` means no
statement fails, `some n` means the statement after `n` successful ones
raises), and whether the error has struck (after which no further statement
runs). -/
structure ExecState where
  conn : Conn
  remaining : Option Nat
  failed : Bool
deriving DecidableEq, Repr

/-- Run one statement unless the error already struck or strikes now. -/
def tryStep (st : ExecState) (isDml : Bool) (f : Store → Store) : ExecState :=
  if st.failed then st
  else
    match st.remaining with
    | some 0 => { st with failed := true }
    | some (n + 1) =>
      { conn := if isDml then execDML st.conn f else execDDL st.conn f,
        remaining := some n, failed := false }
    | none =>
      { conn := if isDml then execDML st.conn f else execDDL st.conn f,
        remaining := none, failed := false }

/-- Embedding of `DatabaseManager.initialize_database` (lines 57-71) with
Python sqlite3 (3.6+) transaction semantics.  The statements run in source
order on one connection: the three CREATEs and the PRAGMA read, then the
conditional migration statements of `_migrate_database`.  The CREATEs and
ALTERs are DDL and autocommit when no transaction is open; the backfill
UPDATEs are DML and open the implicit transaction that `conn.commit()`
closes.  `failAt` injects a `sqlite3.Error`: `none` lets every statement
succeed, `some n` makes the statement after `n` successful ones raise, upon
which the handler prints the error, calls `conn.rollback()` (undoing only
the open transaction — autocommitted DDL persists) and returns normally.
The `Except` component is what escapes to the caller: the handler catches
every `sqlite3.Error`, so it is `Except.ok ()` on every path. -/
def initializeDatabase (s : Store) (failAt : Option Nat) : Store × Except String Unit :=
  let st0 : ExecState :=
    { conn := { committed := s, pending := s, txnOpen := false },
      remaining := failAt, failed := false }
  let st1 := tryStep st0 false createWorkersTable
  let st2 := tryStep st1 false createHousesTable
  let st3 := tryStep st2 false createHistoryTable
  let st4 := tryStep st3 false id
  let cols := if st4.conn.pending.historyExists then st4.conn.pending.historyCols else []
  let st5 := if "assignment_date" ∈ cols then st4
    else tryStep st4 false alterAddAssignmentDate
  let st6 := if "assignment_date" ∈ cols then st5
    else tryStep st5 true updateBackfillAssignmentDate
  let st7 := if "email_sent" ∈ cols then st6
    else tryStep st6 false alterAddEmailSent
  let st8 := if "email_sent" ∈ cols then st7
    else tryStep st7 true updateEmailSent
  let finalConn := if st8.failed then rollbackConn st8.conn else commitConn st8.conn
  (finalConn.committed, Except.ok ())

/-- Schema predicate: all three tables exist and `assignment_history`
carries both migration columns. -/
def Migrated (s : Store) : Prop :=
  s.workersExists = true ∧ s.housesExists = true ∧ s.historyExists = true
    ∧ "assignment_date" ∈ s.historyCols ∧ "email_sent" ∈ s.historyCols

instance (s : Store) : Decidable (Migrated s) := by
  unfold Migrated; infer_instance

/-! ### Repository operations on workers and houses -/

/-- Embedding of the insert in `_add_worker` (line 578):
`INSERT INTO workers(name, email) VALUES(?, ?)` with an AUTOINCREMENT id. -/
def addWorker (s : Store) (name email : String) : Store :=
  { s with workers := s.workers ++ [{ id := s.nextWorkerId, name := name, email := email }],
           nextWorkerId := s.nextWorkerId + 1 }

/-- Embedding of the update in `_edit_worker` (line 594):
`UPDATE workers SET name=?, email=? WHERE id=?`. -/
def editWorker (s : Store) (wid : Nat) (name email : String) : Store :=
  { s with workers := s.workers.map (fun w =>
      if w.id == wid then { w with name := name, email := email } else w) }

/-- Embedding of the delete in `_delete_worker` (line 607):
`DELETE FROM workers WHERE id=?`. -/
def deleteWorker (s : Store) (wid : Nat) : Store :=
  { s with workers := s.workers.filter (fun w => w.id != wid) }

/-- Embedding of the insert in `_add_house` (line 722). -/
def addHouse (s : Store) (name : String) : Store :=
  { s with houses := s.houses ++ [{ id := s.nextHouseId, name := name }],
           nextHouseId := s.nextHouseId + 1 }

/-- Embedding of the update in `_edit_house` (line 742). -/
def editHouse (s : Store) (hid : Nat) (name : String) : Store :=
  { s with houses := s.houses.map (fun h =>
      if h.id == hid then { h with name := name } else h) }

/-- Embedding of the delete in `_delete_house` (line 760):
`DELETE FROM houses WHERE id=?`. -/
def deleteHouse (s : Store) (hid : Nat) : Store :=
  { s with houses := s.houses.filter (fun h => h.id != hid) }

/-! ### Availability resolver -/

/-- Embedding of `TaskMeisterApp._get_assigned_houses_for_date`
(lines 613-619): `SELECT DISTINCT house_id FROM assignment_history WHERE
assignment_date = ? AND email_sent = 1`.  SQL equality with NULL is false,
so only rows whose columns hold exactly the date and 1 qualify. -/
def getAssignedHousesForDate (s : Store) (dateStr : String) : List Nat :=
  ((s.history.filter (fun r =>
      r.assignment_date == some dateStr && r.email_sent == some true)).map
    (fun r => r.house_id)).dedup

/-- All houses ordered by name (`SELECT id, name FROM houses ORDER BY name
ASC`, line 633). -/
def sortHousesByName (houses : List House) : List House :=
  sortBy (fun a b => strLe a.name b.name) houses

/-- Embedding of the `available_houses` computation in
`TaskMeisterApp._refresh_houses` (lines 621-649): all houses ordered by
name, with those whose id is in `_get_assigned_houses_for_date` removed. -/
def availableHouses (s : Store) (dateStr : String) : List House :=
  let rows := sortHousesByName s.houses
  let assigned := getAssignedHousesForDate s dateStr
  rows.filter (fun h => !(assigned.contains h.id))

/-! ### Assignment orchestrator -/

/-- One insert of `TaskMeisterApp._save_assignments_to_db` (lines 858-865):
`INSERT INTO assignment_history(worker_id, house_id, quantity, note,
assignment_date, email_sent) VALUES (?, ?, ?, ?, ?, 1)`; `date_assigned`
takes its `CURRENT_TIMESTAMP` default, modelled by the `now` argument. -/
def insertAssignment (s : Store) (wid hid : Nat) (qty : Int) (note : String)
    (dateStr now : String) : Store :=
  { s with
    history := s.history ++
      [{ id := s.nextHistoryId, worker_id := wid, house_id := hid, quantity := qty,
         note := some note, date_assigned := now, assignment_date := some dateStr,
         email_sent := some true }],
    nextHistoryId := s.nextHistoryId + 1 }

/-- Embedding of `TaskMeisterApp._save_assignments_to_db` (lines 858-865):
one insert per selection `(house_id, quantity, note)`, in order. -/
def saveAssignmentsToDb (s : Store) (wid : Nat) (sels : List (Nat × Int × String))
    (dateStr now : String) : Store :=
  sels.foldl (fun acc sel => insertAssignment acc wid sel.1 sel.2.1 sel.2.2 dateStr now) s

/-- Outcome of `_send_assignments` as observed by the user. -/
inductive SendResult where
  | noWorker
  | noSelection
  | success
  | sendFailed
deriving DecidableEq, Repr

/-- Embedding of `TaskMeisterApp._send_assignments` (lines 794-842): error
out if no worker is selected; error out if the selection set is empty;
otherwise save all rows to the database and then attempt the notification
(`emailOk` injects the outcome of the SMTP call).  A failed notification is
reported but the already-inserted rows are kept.  The date picker is
assumed present (its absence is a UI-environment error path). -/
def sendAssignments (s : Store) (currentWorker : Option Worker)
    (sels : List (Nat × Int × String)) (dateStr now : String) (emailOk : Bool) :
    Store × SendResult :=
  match currentWorker with
  | none => (s, SendResult.noWorker)
  | some w =>
    match sels with
    | [] => (s, SendResult.noSelection)
    | _ :: _ =>
      let s2 := saveAssignmentsToDb s w.id sels dateStr now
      if emailOk then (s2, SendResult.success) else (s2, SendResult.sendFailed)

/-- Closed form of the rows `_save_assignments_to_db` appends: used to
state what the commit writes (one record per selection, target date set,
delivery flag written as 1, ids consecutive from the AUTOINCREMENT
counter). -/
def insertedRecords (startId wid : Nat) (sels : List (Nat × Int × String))
    (dateStr now : String) : List AssignmentRecord :=
  match sels with
  | [] => []
  | sel :: rest =>
    { id := startId, worker_id := wid, house_id := sel.1, quantity := sel.2.1,
      note := some sel.2.2, date_assigned := now, assignment_date := some dateStr,
      email_sent := some true } :: insertedRecords (startId + 1) wid rest dateStr now

/-! ### History query service -/

/-- Row produced by the history SELECT before display formatting: the
record joined with its worker and house names. -/
structure JoinedRow where
  workerName : String
  houseName : String
  quantity : Int
  note : Option String
  assignment_date : Option String
  date_assigned : String
  email_sent : Option Bool
deriving DecidableEq, Repr

/-- History records ordered by `ORDER BY a.date_assigned DESC`. -/
def sortHistoryDesc (l : List AssignmentRecord) : List AssignmentRecord :=
  sortBy (fun a b => strLe b.date_assigned a.date_assigned) l

/-- The two inner joins of the history query (`JOIN workers w ON
a.worker_id = w.id JOIN houses h ON a.house_id = h.id`): a record whose
worker or house id matches no existing row produces no output row. -/
def joinRecord (s : Store) (r : AssignmentRecord) : Option JoinedRow :=
  match s.workers.find? (fun w => w.id == r.worker_id) with
  | none => none
  | some w =>
    match s.houses.find? (fun h => h.id == r.house_id) with
    | none => none
    | some h =>
      some { workerName := w.name, houseName := h.name, quantity := r.quantity,
             note := r.note, assignment_date := r.assignment_date,
             date_assigned := r.date_assigned, email_sent := r.email_sent }

/-- The shared history query of `_load_history_data`,
`_apply_history_filter` and `_export_history` (lines 919-926, 978-985,
1022-1029): all of them run the same SELECT with the same joins and the
same descending ordering. -/
def loadHistoryRows (s : Store) : List JoinedRow :=
  (sortHistoryDesc s.history).filterMap (joinRecord s)

/-- Models `datetime.strptime(x, '%Y-%m-%d').strftime('%d.%m.%Y')` on the
zero-padded `YYYY-MM-DD` strings this application writes (it writes them
with `strftime('%Y-%m-%d')` and SQLite `DATE(...)`); a string not of that
shape fails to parse. -/
def formatYMD (l : List Char) : Option (List Char) :=
  match splitOnChar '-' l with
  | [y, m, d] =>
    if y.length == 4 && m.length == 2 && d.length == 2
        && allDigits y && allDigits m && allDigits d
        && decide (1 ≤ digitsToNat m) && decide (digitsToNat m ≤ 12)
        && decide (1 ≤ digitsToNat d) && decide (digitsToNat d ≤ 31) then
      some (d ++ '.' :: m ++ '.' :: y)
    else none
  | _ => none

/-- Formats the `assignment_date` column for display and export: the
`DD.MM.YYYY` reformat on success, and on any parse failure the bare value
(`assignment_date or ""`, so NULL becomes the empty string). -/
def formatAssignmentDate (ad : Option String) : String :=
  match ad with
  | none => ""
  | some ds =>
    match formatYMD ds.toList with
    | some out => String.mk out
    | none => ds

/-- Time-of-day component of the record timestamp (`%H:%M:%S` reformatted
to `%H:%M`). -/
def formatTimePart (l : List Char) : Option (List Char) :=
  match splitOnChar ':' l with
  | [h, mi, sec] =>
    if h.length == 2 && mi.length == 2 && sec.length == 2
        && allDigits h && allDigits mi && allDigits sec
        && decide (digitsToNat h ≤ 23) && decide (digitsToNat mi ≤ 59)
        && decide (digitsToNat sec ≤ 61) then
      some (h ++ ':' :: mi)
    else none
  | _ => none

/-- Models `datetime.strptime(x, '%Y-%m-%d %H:%M:%S').strftime('%d.%m.%Y
%H:%M')` with fall-through to the raw value on parse failure. -/
def formatRecordDate (ts : String) : String :=
  match splitOnChar ' ' ts.toList with
  | [dpart, tpart] =>
    match formatYMD dpart, formatTimePart tpart with
    | some dout, some tout => String.mk (dout ++ ' ' :: tout)
    | _, _ => ts
  | _ => ts

/-- Status label: `"Sent" if email_sent else "Pending"` — the SQLite value
is 1, 0 or NULL and only 1 is truthy. -/
def statusLabel (emailSent : Option Bool) : String :=
  if emailSent == some true then "Sent" else "Pending"

/-- The seven display fields of one history row, shared verbatim by the
history view, the filtered view and the CSV export. -/
def formatJoined (j : JoinedRow) : List String :=
  [j.workerName, j.houseName, toString j.quantity, j.note.getD "",
   formatAssignmentDate j.assignment_date, formatRecordDate j.date_assigned,
   statusLabel j.email_sent]

/-- Embedding of `TaskMeisterApp._load_history_data` (lines 917-947): the
unfiltered history view. -/
def loadHistoryData (s : Store) : List (List String) :=
  (loadHistoryRows s).map formatJoined

/-- The match condition of `_apply_history_filter` (lines 988-990):
`filter_text.lower()` is a substring of the lowercased worker name, house
name or note (`note or ""`). -/
def matchesRow (filterText : String) (j : JoinedRow) : Bool :=
  let f := pyLower filterText.toList
  containsSub f (pyLower j.workerName.toList)
    || containsSub f (pyLower j.houseName.toList)
    || containsSub f (pyLower (j.note.getD "").toList)

/-- Embedding of `TaskMeisterApp._apply_history_filter` (lines 969-1008):
reload all rows and keep those matching the filter, formatted. -/
def applyHistoryFilter (s : Store) (filterText : String) : List (List String) :=
  ((loadHistoryRows s).filter (matchesRow filterText)).map formatJoined

/-- Header row written by `_export_history` (lines 1033-1034). -/
def historyHeader : List String :=
  ["Worker", "House", "Quantity", "Note", "Assignment Date", "Record Date", "Status"]

/-- Embedding of `TaskMeisterApp._export_history` (lines 1010-1058): the
CSV content as a list of rows — the fixed header followed by one line per
record of the full (unfiltered) history query. -/
def exportHistory (s : Store) : List (List String) :=
  historyHeader :: loadHistoryData s

/-- Spec-side match predicate for the history filter, written from the
specification's words: the lowercased filter occurs as a contiguous
substring of the lowercased worker name, OR of the house name, OR of the
note. -/
def specMatches (filterText : String) (j : JoinedRow) : Prop :=
  (∃ p q, pyLower j.workerName.toList = p ++ pyLower filterText.toList ++ q)
    ∨ (∃ p q, pyLower j.houseName.toList = p ++ pyLower filterText.toList ++ q)
    ∨ (∃ p q, pyLower (j.note.getD "").toList = p ++ pyLower filterText.toList ++ q)

/-! ### Notification body (`EmailService._create_email_body`) -/

/-- One batch entry as prepared by `_prepare_assignment_data`. -/
structure EmailAssignment where
  house_name : String
  quantity : Int
  note : String
deriving DecidableEq, Repr

/-- One per-house line of the body (lines 183-187): note suffix appended
exactly when the note string is truthy, i.e. non-empty. -/
def assignmentLine (a : EmailAssignment) : String :=
  let line := "- " ++ a.house_name ++ " → " ++ toString a.quantity ++ " bedding sets"
  if a.note == "" then line else line ++ " | Note: " ++ a.note

/-- The line-building loop of `_create_email_body`. -/
def buildBodyLines : List EmailAssignment → List String
  | [] => []
  | a :: rest => assignmentLine a :: buildBodyLines rest

/-- Embedding of `EmailService._create_email_body` (lines 179-195). -/
def createEmailBody (workerName : String) (assignments : List EmailAssignment)
    (assignmentDate : String) : String :=
  "Hello " ++ workerName ++ ",\n\n"
    ++ "Date: " ++ assignmentDate ++ "\n"
    ++ "You have been assigned to the following houses:\n\n"
    ++ joinWith "\n" (buildBodyLines assignments)
    ++ "\n\nGood luck with your work!"

/-- Spec-side per-house line, following the specification's template words
with the unit word `units`. -/
def specEmailLineUnits (a : EmailAssignment) : String :=
  "- " ++ a.house_name ++ " → " ++ toString a.quantity ++ " units"
    ++ (if a.note == "" then "" else " | Note: " ++ a.note)

/-- Spec-side body template with `units` per-house lines (the claim's
wording), used to compare against the source's body. -/
def specEmailBodyUnits (workerName : String) (assignments : List EmailAssignment)
    (assignmentDate : String) : String :=
  "Hello " ++ workerName ++ ",\n\n"
    ++ "Date: " ++ assignmentDate ++ "\n"
    ++ "You have been assigned to the following houses:\n\n"
    ++ joinWith "\n" (assignments.map specEmailLineUnits)
    ++ "\n\nGood luck with your work!"

/-- Per-house line of the amended template: `- <house> → <quantity> bedding
sets`, with the note suffix exactly when the note is non-empty. -/
def specEmailLine (a : EmailAssignment) : String :=
  "- " ++ a.house_name ++ " → " ++ toString a.quantity ++ " bedding sets"
    ++ (if a.note == "" then "" else " | Note: " ++ a.note)

/-- Amended deterministic body template: greeting line, date line, intro
line, one `specEmailLine` per house joined by newlines, closing line. -/
def specEmailBody (workerName : String) (assignments : List EmailAssignment)
    (assignmentDate : String) : String :=
  "Hello " ++ workerName ++ ",\n\n"
    ++ "Date: " ++ assignmentDate ++ "\n"
    ++ "You have been assigned to the following houses:\n\n"
    ++ joinWith "\n" (assignments.map specEmailLine)
    ++ "\n\nGood luck with your work!"

/-! ### Concrete stores used by witnesses and counterexamples -/

/-- A fresh, fully migrated, empty store (what `initialize_database`
produces from nothing). -/
def emptyStore : Store :=
  { workersExists := true, housesExists := true, historyExists := true,
    historyCols := migratedCols, workers := [], houses := [], history := [],
    nextWorkerId := 1, nextHouseId := 1, nextHistoryId := 1 }

/-- Demo worker. -/
def demoWorker : Worker := { id := 1, name := "Ana", email := "ana@x.com" }

/-- Store for the availability witness: two houses; house 2 has a
delivered record for 2024-05-01, house 1 only a pending one. -/
def c1Store : Store :=
  { emptyStore with
    workers := [demoWorker],
    houses := [{ id := 1, name := "Alpha" }, { id := 2, name := "Beta" }],
    history :=
      [{ id := 1, worker_id := 1, house_id := 1, quantity := 1, note := some "",
         date_assigned := "2024-04-30 10:00:00", assignment_date := some "2024-05-01",
         email_sent := some false },
       { id := 2, worker_id := 1, house_id := 2, quantity := 1, note := some "",
         date_assigned := "2024-04-30 10:05:00", assignment_date := some "2024-05-01",
         email_sent := some true }],
    nextHouseId := 3, nextHistoryId := 3 }

/-- Store for the commit claims: one worker, one house, no history. -/
def c2Store : Store :=
  { emptyStore with
    workers := [demoWorker],
    houses := [{ id := 1, name := "Alpha" }], nextHouseId := 2 }

/-- The single record the commit witness inserts. -/
def c2DemoRecord : AssignmentRecord :=
  { id := 1, worker_id := 1, house_id := 1, quantity := 1, note := some "",
    date_assigned := "2024-04-30 10:00:00", assignment_date := some "2024-05-01",
    email_sent := some true }

/-- Store for the export counterexample: one fully joined record none of
whose fields contains the letter z. -/
def c5Store : Store :=
  { emptyStore with
    workers := [demoWorker],
    houses := [{ id := 1, name := "Alpha" }],
    history :=
      [{ id := 1, worker_id := 1, house_id := 1, quantity := 2, note := some "late ok",
         date_assigned := "2024-04-30 10:00:00", assignment_date := some "2024-05-01",
         email_sent := some true }],
    nextHouseId := 2, nextHistoryId := 2 }

/-- Store for the filter example: the house is Northgate, worker and note
do not contain the filter text. -/
def c6Store : Store :=
  { emptyStore with
    workers := [demoWorker],
    houses := [{ id := 1, name := "Northgate" }],
    history :=
      [{ id := 1, worker_id := 1, house_id := 1, quantity := 1, note := some "late ok",
         date_assigned := "2024-04-30 10:00:00", assignment_date := some "2024-05-01",
         email_sent := some true }],
    nextHouseId := 2, nextHistoryId := 2 }

/-- The joined row the Northgate record produces. -/
def c6NorthRow : JoinedRow :=
  { workerName := "Ana", houseName := "Northgate", quantity := 1, note := some "late ok",
    assignment_date := some "2024-05-01", date_assigned := "2024-04-30 10:00:00",
    email_sent := some true }

/-- A legacy, pre-migration store: `assignment_history` exists with only
the base columns and holds one row (written by an earlier application
version, so its two migration fields are NULL). -/
def c9LegacyStore : Store :=
  { workersExists := true, housesExists := true, historyExists := true,
    historyCols := baseHistoryCols, workers := [], houses := [],
    history :=
      [{ id := 1, worker_id := 1, house_id := 1, quantity := 1, note := some "old",
         date_assigned := "2024-01-02 03:04:05", assignment_date := none,
         email_sent := none }],
    nextWorkerId := 1, nextHouseId := 1, nextHistoryId := 2 }

/-! ### Helper lemmas -/

theorem mem_insertSorted {α : Type} (le : α → α → Bool) (a x : α) (l : List α) :
    x ∈ insertSorted le a l ↔ x = a ∨ x ∈ l := by
  induction l with
  | nil => simp [insertSorted]
  | cons b t ih =>
    by_cases h : le a b = true
    · simp [insertSorted, h]
    · simp only [insertSorted, if_neg h, List.mem_cons, ih]
      tauto

theorem mem_sortBy {α : Type} (le : α → α → Bool) (x : α) (l : List α) :
    x ∈ sortBy le l ↔ x ∈ l := by
  induction l with
  | nil => simp [sortBy]
  | cons a t ih => simp [sortBy, mem_insertSorted, ih]

theorem isPrefixOf_iff_exists (n l : List Char) :
    n.isPrefixOf l = true ↔ ∃ t, l = n ++ t := by
  induction n generalizing l with
  | nil => simp [List.isPrefixOf]
  | cons a as ih =>
    cases l with
    | nil => simp [List.isPrefixOf]
    | cons b bs =>
      simp only [List.isPrefixOf, Bool.and_eq_true, beq_iff_eq, ih, List.cons_append]
      constructor
      · rintro ⟨hab, t, ht⟩
        exact ⟨t, by rw [hab, ht]⟩
      · rintro ⟨t, ht⟩
        injection ht with h1 h2
        exact ⟨h1.symm, t, h2⟩

theorem containsSub_iff (n l : List Char) :
    containsSub n l = true ↔ ∃ p q, l = p ++ n ++ q := by
  induction l with
  | nil =>
    simp only [containsSub, List.isEmpty_iff]
    constructor
    · rintro rfl; exact ⟨[], [], rfl⟩
    · rintro ⟨p, q, h⟩
      rcases List.append_eq_nil.mp h.symm with ⟨h1, h2⟩
      exact (List.append_eq_nil.mp h1).2
  | cons c rest ih =>
    simp only [containsSub, Bool.or_eq_true, isPrefixOf_iff_exists, ih]
    constructor
    · rintro (⟨t, ht⟩ | ⟨p, q, hpq⟩)
      · exact ⟨[], t, by simpa using ht⟩
      · exact ⟨c :: p, q, by simp [hpq]⟩
    · rintro ⟨p, q, hpq⟩
      cases p with
      | nil => exact Or.inl ⟨q, by simpa using hpq⟩
      | cons x xs =>
        injection hpq with h1 h2
        exact Or.inr ⟨xs, q, by simpa using h2⟩

theorem containsSub_nil_left (l : List Char) : containsSub [] l = true := by
  cases l <;> simp [containsSub, List.isPrefixOf]

theorem filterMap_congr_on {α β : Type} {f g : α → Option β} (l : List α)
    (h : ∀ a ∈ l, f a = g a) : l.filterMap f = l.filterMap g := by
  induction l with
  | nil => rfl
  | cons a t ih =>
    simp only [List.filterMap_cons, h a (List.mem_cons_self a t)]
    rw [ih (fun x hx => h x (List.mem_cons_of_mem a hx))]

theorem contains_eq_decide_mem (l : List Nat) (a : Nat) :
    l.contains a = decide (a ∈ l) := by
  simp [List.contains, List.elem_eq_mem]

theorem mem_getAssignedHousesForDate (s : Store) (d : String) (hid : Nat) :
    hid ∈ getAssignedHousesForDate s d ↔
      ∃ r ∈ s.history, r.house_id = hid ∧ r.assignment_date = some d ∧ r.email_sent = some true := by
  unfold getAssignedHousesForDate
  simp only [List.mem_dedup, List.mem_map, List.mem_filter, Bool.and_eq_true, beq_iff_eq]
  constructor
  · rintro ⟨r, ⟨hr, had, hes⟩, rfl⟩
    exact ⟨r, hr, rfl, had, hes⟩
  · rintro ⟨r, hr, hhid, had, hes⟩
    exact ⟨r, ⟨hr, had, hes⟩, hhid⟩

/-! ### Claim C1 -/

/-- C1: for every date D, the available-house list of `_refresh_houses`
equals all houses ordered by name with exactly those houses removed that
have a record with target date D and delivery flag 1; consequently it never
contains a house with a Delivered record for D, it contains every house
none of whose records for D is Delivered (in particular a house whose only
records for D are Pending), and it preserves the name ordering of the full
house list. -/
theorem c1_availableHouses_spec (s : Store) (d : String) :
    availableHouses s d
      = (sortHousesByName s.houses).filter
          (fun h => !(decide (∃ r ∈ s.history,
              r.house_id = h.id ∧ r.assignment_date = some d ∧ r.email_sent = some true)))
    ∧ (availableHouses s d).Sublist (sortHousesByName s.houses)
    ∧ (∀ h ∈ availableHouses s d,
        ¬ ∃ r ∈ s.history,
            r.house_id = h.id ∧ r.assignment_date = some d ∧ r.email_sent = some true)
    ∧ (∀ h ∈ sortHousesByName s.houses,
        (∀ r ∈ s.history,
            r.house_id = h.id → r.assignment_date = some d → r.email_sent ≠ some true) →
        h ∈ availableHouses s d) := by
  have hmem : ∀ hid : Nat, (getAssignedHousesForDate s d).contains hid
      = decide (∃ r ∈ s.history,
          r.house_id = hid ∧ r.assignment_date = some d ∧ r.email_sent = some true) := by
    intro hid
    rw [contains_eq_decide_mem, decide_eq_decide]
    exact mem_getAssignedHousesForDate s d hid
  refine ⟨?_, ?_, ?_, ?_⟩
  · unfold availableHouses
    exact List.filter_congr (fun h _ => by rw [hmem h.id])
  · unfold availableHouses
    exact List.filter_sublist _
  · intro h hmemf
    unfold availableHouses at hmemf
    rw [List.mem_filter] at hmemf
    have hb := hmemf.2
    rw [hmem h.id] at hb
    simpa using hb
  · intro h hsorted hall
    unfold availableHouses
    rw [List.mem_filter]
    refine ⟨hsorted, ?_⟩
    rw [hmem h.id]
    simp only [Bool.not_eq_true', decide_eq_false_iff_not]
    rintro ⟨r, hr, hhid, had, hes⟩
    exact hall r hr hhid had hes

/-- Witness for C1 on a concrete store: the house whose only record for the
date is Pending is available, the house with a Delivered record is not. -/
theorem c1_witness :
    ({ id := 1, name := "Alpha" } : House) ∈ availableHouses c1Store "2024-05-01"
    ∧ ({ id := 2, name := "Beta" } : House) ∉ availableHouses c1Store "2024-05-01" := by
  constructor
  · exact (c1_availableHouses_spec c1Store "2024-05-01").2.2.2
      { id := 1, name := "Alpha" } (by decide) (by decide)
  · intro hmem
    exact (c1_availableHouses_spec c1Store "2024-05-01").2.2.1
      { id := 2, name := "Beta" } hmem (by decide)

/-! ### Claim C2 -/

theorem insertedRecords_length (startId wid : Nat) (sels : List (Nat × Int × String))
    (dateStr now : String) :
    (insertedRecords startId wid sels dateStr now).length = sels.length := by
  induction sels generalizing startId with
  | nil => rfl
  | cons a t ih => simp [insertedRecords, ih]

theorem insertedRecords_fields (startId wid : Nat) (sels : List (Nat × Int × String))
    (dateStr now : String) :
    ∀ r ∈ insertedRecords startId wid sels dateStr now,
      r.assignment_date = some dateStr ∧ r.email_sent = some true ∧ r.worker_id = wid := by
  induction sels generalizing startId with
  | nil =>
    intro r hr
    simp [insertedRecords] at hr
  | cons a t ih =>
    intro r hr
    simp only [insertedRecords] at hr
    rcases List.mem_cons.mp hr with rfl | hmem
    · exact ⟨rfl, rfl, rfl⟩
    · exact ih (startId + 1) r hmem

theorem saveAssignmentsToDb_eq (sels : List (Nat × Int × String)) (s : Store) (wid : Nat)
    (dateStr now : String) :
    saveAssignmentsToDb s wid sels dateStr now
      = { s with history := s.history ++ insertedRecords s.nextHistoryId wid sels dateStr now,
                 nextHistoryId := s.nextHistoryId + sels.length } := by
  induction sels generalizing s with
  | nil => simp [saveAssignmentsToDb, insertedRecords]
  | cons a t ih =>
    show saveAssignmentsToDb (insertAssignment s wid a.1 a.2.1 a.2.2 dateStr now) wid t dateStr now = _
    rw [ih]
    cases s
    simp [insertAssignment, insertedRecords, List.append_assoc]
    omega

/-- C2 (amended): for a non-empty selection list and a set worker, the
commit appends exactly one AssignmentRecord per selection, each with target
date equal to the given date and delivery flag = true (`email_sent = 1`,
not false) already at insertion time — the store contents are the same
whether the notification afterwards succeeds or fails. -/
theorem c2_commit_inserts_sent_records (s : Store) (w : Worker) (sel : Nat × Int × String)
    (sels : List (Nat × Int × String)) (dateStr now : String) (emailOk : Bool) :
    (sendAssignments s (some w) (sel :: sels) dateStr now emailOk).1.history
        = s.history ++ insertedRecords s.nextHistoryId w.id (sel :: sels) dateStr now
    ∧ (insertedRecords s.nextHistoryId w.id (sel :: sels) dateStr now).length
        = (sel :: sels).length
    ∧ (∀ r ∈ insertedRecords s.nextHistoryId w.id (sel :: sels) dateStr now,
        r.assignment_date = some dateStr ∧ r.email_sent = some true ∧ r.worker_id = w.id)
    ∧ (sendAssignments s (some w) (sel :: sels) dateStr now true).1
        = (sendAssignments s (some w) (sel :: sels) dateStr now false).1 := by
  refine ⟨?_, insertedRecords_length _ _ _ _ _, insertedRecords_fields _ _ _ _ _, rfl⟩
  have hsave : (sendAssignments s (some w) (sel :: sels) dateStr now emailOk).1
      = saveAssignmentsToDb s w.id (sel :: sels) dateStr now := by
    cases emailOk <;> rfl
  rw [hsave, saveAssignmentsToDb_eq]

/-- Witness for C2 at a concrete commit: the single inserted record carries
the target date, delivery flag 1 and the worker id. -/
theorem c2_witness :
    c2DemoRecord.assignment_date = some "2024-05-01"
    ∧ c2DemoRecord.email_sent = some true
    ∧ c2DemoRecord.worker_id = demoWorker.id :=
  (c2_commit_inserts_sent_records c2Store demoWorker (1, 1, "") [] "2024-05-01"
    "2024-04-30 10:00:00" true).2.2.1 c2DemoRecord (by decide)

/-- Counterexample for C2 as stated: committing one selection inserts its
record with delivery flag 1 (`Sent`), not 0 (`Pending`) — even when the
notification afterwards fails, so the flag was already 1 at insertion
time. -/
theorem c2_counterexample :
    ((sendAssignments c2Store (some demoWorker) [(1, 1, "")] "2024-05-01"
        "2024-04-30 10:00:00" false).1.history.map (fun r => r.email_sent)) = [some true]
    ∧ ((sendAssignments c2Store (some demoWorker) [(1, 1, "")] "2024-05-01"
        "2024-04-30 10:00:00" false).1.history.map (fun r => r.email_sent)) ≠ [some false]
    ∧ (sendAssignments c2Store (some demoWorker) [(1, 1, "")] "2024-05-01"
        "2024-04-30 10:00:00" false).2 = SendResult.sendFailed := by
  refine ⟨?_, ?_, ?_⟩ <;> decide

/-! ### Claim C3 -/

/-- C3 (amended): the commit rejects — and leaves the store untouched —
when no worker is set and when the selection set is empty; these two
checks happen before any database write.  (Quantity is not validated by
the commit: see the counterexample.) -/
theorem c3_rejects_without_mutation (s : Store) (sels : List (Nat × Int × String))
    (w : Worker) (dateStr now : String) (emailOk : Bool) :
    sendAssignments s none sels dateStr now emailOk = (s, SendResult.noWorker)
    ∧ sendAssignments s (some w) [] dateStr now emailOk = (s, SendResult.noSelection) :=
  ⟨rfl, rfl⟩

/-- Counterexample for C3 as stated: a selection with quantity 0 is not
rejected — the commit succeeds and inserts a row with quantity 0 into the
previously empty history. -/
theorem c3_counterexample :
    (sendAssignments c2Store (some demoWorker) [(1, 0, "")] "2024-05-01"
        "2024-04-30 10:00:00" true).2 = SendResult.success
    ∧ ((sendAssignments c2Store (some demoWorker) [(1, 0, "")] "2024-05-01"
        "2024-04-30 10:00:00" true).1.history.map (fun r => r.quantity)) = [0]
    ∧ c2Store.history = [] := by
  refine ⟨?_, ?_, ?_⟩ <;> decide

/-! ### Claim C4 -/

theorem createTables_flags (s : Store) :
    (createTables s).workersExists = true ∧ (createTables s).housesExists = true
    ∧ (createTables s).historyExists = true := by
  by_cases h1 : s.workersExists = true <;> by_cases h2 : s.housesExists = true <;>
    by_cases h3 : s.historyExists = true <;>
    simp [createTables, createWorkersTable, createHousesTable, createHistoryTable, h1, h2, h3]

theorem migrateDatabase_flags (s : Store) :
    (migrateDatabase s).workersExists = s.workersExists
    ∧ (migrateDatabase s).housesExists = s.housesExists
    ∧ (migrateDatabase s).historyExists = s.historyExists := by
  by_cases hH : s.historyExists = true <;>
    by_cases hA : "assignment_date" ∈ s.historyCols <;>
    by_cases hE : "email_sent" ∈ s.historyCols <;>
    simp [migrateDatabase, alterAddAssignmentDate, updateBackfillAssignmentDate,
          alterAddEmailSent, updateEmailSent, hH, hA, hE]

theorem migrateDatabase_cols (s : Store) (h : s.historyExists = true) :
    "assignment_date" ∈ (migrateDatabase s).historyCols
    ∧ "email_sent" ∈ (migrateDatabase s).historyCols := by
  by_cases hA : "assignment_date" ∈ s.historyCols <;>
    by_cases hE : "email_sent" ∈ s.historyCols <;>
    simp [migrateDatabase, alterAddAssignmentDate, updateBackfillAssignmentDate,
          alterAddEmailSent, updateEmailSent, h, hA, hE, List.mem_append]

theorem createTables_of_exists (s : Store) (h1 : s.workersExists = true)
    (h2 : s.housesExists = true) (h3 : s.historyExists = true) : createTables s = s := by
  simp [createTables, createWorkersTable, createHousesTable, createHistoryTable, h1, h2, h3]

theorem migrateDatabase_of_migrated (s : Store) (h : Migrated s) : migrateDatabase s = s := by
  obtain ⟨-, -, h3, h4, h5⟩ := h
  simp [migrateDatabase, h3, h4, h5]

theorem migrated_after_initialize (s : Store) : Migrated (migrateDatabase (createTables s)) := by
  obtain ⟨e1, e2, e3⟩ := createTables_flags s
  obtain ⟨f1, f2, f3⟩ := migrateDatabase_flags (createTables s)
  obtain ⟨c1, c2⟩ := migrateDatabase_cols (createTables s) e3
  exact ⟨f1.trans e1, f2.trans e2, f3.trans e3, c1, c2⟩

/-- On the path with no injected error every statement runs and the final
commit makes the whole migration durable: the call is the pure composition
of `_create_tables` and `_migrate_database`. -/
theorem initializeDatabase_none (s : Store) :
    initializeDatabase s none = (migrateDatabase (createTables s), Except.ok ()) := by
  have hHist : (createHistoryTable (createHousesTable (createWorkersTable s))).historyExists
      = true := (createTables_flags s).2.2
  by_cases hA : "assignment_date"
      ∈ (createHistoryTable (createHousesTable (createWorkersTable s))).historyCols <;>
    by_cases hE : "email_sent"
        ∈ (createHistoryTable (createHousesTable (createWorkersTable s))).historyCols <;>
    simp [initializeDatabase, migrateDatabase, createTables, tryStep, execDDL, execDML,
          commitConn, rollbackConn, hHist, hA, hE]

/-- C4: the schema initialization is idempotent — running
`initialize_database` (with no statement failing) on the store it just
produced changes nothing (same tables, same columns, same rows, so in
particular the same row count in every table), and running it on any
already-migrated store is a no-op. -/
theorem c4_initializeDatabase_idempotent (s : Store) :
    initializeDatabase ((initializeDatabase s none).1) none
        = ((initializeDatabase s none).1, Except.ok ())
    ∧ (Migrated s → initializeDatabase s none = (s, Except.ok ())) := by
  have h1 := initializeDatabase_none s
  constructor
  · have hm := migrated_after_initialize s
    rw [h1]
    show initializeDatabase (migrateDatabase (createTables s)) none
        = (migrateDatabase (createTables s), Except.ok ())
    rw [initializeDatabase_none, createTables_of_exists _ hm.1 hm.2.1 hm.2.2.1,
        migrateDatabase_of_migrated _ hm]
  · intro hm
    rw [h1, createTables_of_exists s hm.1 hm.2.1 hm.2.2.1, migrateDatabase_of_migrated s hm]

/-- Witness for C4: initialization of a concrete already-migrated store is
a no-op. -/
theorem c4_witness : initializeDatabase emptyStore none = (emptyStore, Except.ok ()) :=
  (c4_initializeDatabase_idempotent emptyStore).2 (by decide)

/-! ### Claim C5 -/

theorem matchesRow_empty (j : JoinedRow) : matchesRow "" j = true := by
  simp [matchesRow, pyLower, containsSub_nil_left]

/-- C5 (amended): the export ignores the active filter — for every store it
produces exactly the fixed header row followed by one line per record of
the unfiltered history view (equivalently, of `list` under the empty
filter), with identical field values and in the same order; its row count
is that of the unfiltered view plus the header. -/
theorem c5_export_is_unfiltered_list (s : Store) :
    exportHistory s = historyHeader :: loadHistoryData s
    ∧ loadHistoryData s = applyHistoryFilter s ""
    ∧ (exportHistory s).length = (applyHistoryFilter s "").length + 1 := by
  have h2 : loadHistoryData s = applyHistoryFilter s "" := by
    unfold loadHistoryData applyHistoryFilter
    rw [List.filter_eq_self.mpr (fun j _ => matchesRow_empty j)]
  refine ⟨rfl, h2, ?_⟩
  rw [← h2]
  simp [exportHistory]

/-- Counterexample for C5 as stated: under the filter "zzz" the history
view is empty, yet the export still contains the non-matching record — its
row count is not the filtered row count plus the header. -/
theorem c5_counterexample :
    applyHistoryFilter c5Store "zzz" = []
    ∧ (exportHistory c5Store).length = 2
    ∧ (applyHistoryFilter c5Store "zzz").length + 1 ≠ (exportHistory c5Store).length := by
  refine ⟨?_, ?_, ?_⟩ <;> decide

/-! ### Claim C6 -/

theorem matchesRow_iff (ft : String) (j : JoinedRow) :
    matchesRow ft j = true ↔ specMatches ft j := by
  simp only [matchesRow, specMatches, Bool.or_eq_true, containsSub_iff]
  exact or_assoc

/-- C6: a row is in the filtered history view exactly when it is the
formatted image of a joined record for which the lowercased filter string
occurs as a substring of the lowercased worker name, OR house name, OR
note — i.e. matching is case-insensitive and is an OR across the three
fields. -/
theorem c6_filter_characterization (s : Store) (ft : String) (row : List String) :
    row ∈ applyHistoryFilter s ft
      ↔ ∃ j ∈ loadHistoryRows s, specMatches ft j ∧ row = formatJoined j := by
  unfold applyHistoryFilter
  simp only [List.mem_map, List.mem_filter, matchesRow_iff]
  constructor
  · rintro ⟨j, ⟨hj, hm⟩, hrow⟩
    exact ⟨j, hj, hm, hrow.symm⟩
  · rintro ⟨j, hj, hm, hrow⟩
    exact ⟨j, ⟨hj, hm⟩, hrow.symm⟩

/-- Witness for C6, the example of the specification: filtering "north"
returns the record whose house is "Northgate" although neither the worker
name nor the note matches. -/
theorem c6_witness : formatJoined c6NorthRow ∈ applyHistoryFilter c6Store "north" :=
  (c6_filter_characterization c6Store "north" (formatJoined c6NorthRow)).mpr
    ⟨c6NorthRow, by decide, Or.inr (Or.inl ⟨[], "gate".toList, by decide⟩), rfl⟩

/-! ### Claim C7 -/

theorem assignmentLine_eq_spec (a : EmailAssignment) : assignmentLine a = specEmailLine a := by
  unfold assignmentLine specEmailLine
  by_cases h : a.note == ""
  · simp [h]
  · simp only [h, Bool.false_eq_true, if_false, ite_false]
    rw [String.append_assoc]

theorem buildBodyLines_eq (l : List EmailAssignment) : buildBodyLines l = l.map specEmailLine := by
  induction l with
  | nil => rfl
  | cons a t ih => simp [buildBodyLines, assignmentLine_eq_spec, ih]

/-- C7 (amended): the notification body equals the deterministic template
with greeting line, date line, intro line, one per-house line of the form
`- <house> → <quantity> bedding sets` (the unit word of the source, not
`units`) with the ` | Note: <note>` suffix exactly when the note is
non-empty, and a closing line. -/
theorem c7_email_body_template (w : String) (l : List EmailAssignment) (d : String) :
    createEmailBody w l d = specEmailBody w l d := by
  unfold createEmailBody specEmailBody
  rw [buildBodyLines_eq]

/-- Counterexample for C7 as stated: on a concrete batch the body differs
from the claimed `units` template — the per-house line ends in
`bedding sets`. -/
theorem c7_counterexample :
    createEmailBody "Ana" [{ house_name := "Alpha", quantity := 2, note := "" }] "01.05.2024"
      ≠ specEmailBodyUnits "Ana" [{ house_name := "Alpha", quantity := 2, note := "" }]
          "01.05.2024"
    ∧ createEmailBody "Ana" [{ house_name := "Alpha", quantity := 2, note := "" }] "01.05.2024"
      = "Hello Ana,\n\nDate: 01.05.2024\nYou have been assigned to the following houses:\n\n- Alpha → 2 bedding sets\n\nGood luck with your work!" := by
  constructor <;> decide

/-! ### Claim C8 -/

/-- C8 (amended): every error during schema initialization or migration is
caught, printed and swallowed — wherever the error strikes, the caller
observes a normal return, never a distinguishable failure, and startup
continues.  `conn.rollback()` undoes only the implicit DML transaction open
at the time; the CREATE and ALTER statements run in autocommit mode and
persist, so a failure during the backfill UPDATE leaves the store partially
migrated: on the concrete legacy store, failing at the first backfill
leaves `assignment_date` added but un-backfilled and `email_sent` still
missing.  When no statement fails, the call is the full migration and both
columns are present. -/
theorem c8_schema_errors_swallowed (s : Store) (failAt : Option Nat) :
    (initializeDatabase s failAt).2 = Except.ok ()
    ∧ (initializeDatabase s none).1 = migrateDatabase (createTables s)
    ∧ (initializeDatabase s none).1.historyExists = true
    ∧ "assignment_date" ∈ (initializeDatabase s none).1.historyCols
    ∧ "email_sent" ∈ (initializeDatabase s none).1.historyCols
    ∧ (initializeDatabase c9LegacyStore (some 5)).1.historyCols
        = baseHistoryCols ++ ["assignment_date"]
    ∧ ((initializeDatabase c9LegacyStore (some 5)).1.history.map
        (fun r => r.assignment_date)) = [none] := by
  have h1 := initializeDatabase_none s
  have hm := migrated_after_initialize s
  refine ⟨rfl, ?_, ?_, ?_, ?_, by decide, by decide⟩
  · rw [h1]
  · rw [h1]
    exact hm.2.2.1
  · rw [h1]
    exact hm.2.2.2.1
  · rw [h1]
    exact hm.2.2.2.2

/-- Counterexample for C8 as stated: on the concrete legacy store, a
`sqlite3.Error` striking the backfill UPDATE (the sixth statement) is not
propagated — the caller receives a normal return — and the store is NOT
rolled back to its pre-call state: the autocommitted ALTER persists, so
`assignment_history` is left with `assignment_date` present but
un-backfilled and `email_sent` missing. -/
theorem c8_counterexample :
    (initializeDatabase c9LegacyStore (some 5)).2 = Except.ok ()
    ∧ (¬ ∃ msg, (initializeDatabase c9LegacyStore (some 5)).2 = Except.error msg)
    ∧ "assignment_date" ∈ (initializeDatabase c9LegacyStore (some 5)).1.historyCols
    ∧ "email_sent" ∉ (initializeDatabase c9LegacyStore (some 5)).1.historyCols
    ∧ ((initializeDatabase c9LegacyStore (some 5)).1.history.map
        (fun r => r.assignment_date)) = [none]
    ∧ (initializeDatabase c9LegacyStore (some 5)).1 ≠ c9LegacyStore := by
  refine ⟨rfl, ?_, by decide, by decide, by decide, by decide⟩
  rintro ⟨msg, h⟩
  exact Except.noConfusion h

/-! ### Claim C9 -/

/-- C9 (amended): under every runtime operation the history table is
append-only — worker and house add/edit/delete leave it unchanged, the
commit only appends, and a failed notification changes nothing relative to
a successful one (in particular it deletes and updates nothing).  The sole
exception, forced by the counterexample, is the one-time schema migration
backfill of the two added columns on pre-migration rows. -/
theorem c9_history_append_only_runtime (s : Store) (name email hname : String)
    (wid hid : Nat) (cw : Option Worker) (sels : List (Nat × Int × String))
    (dateStr now : String) (emailOk : Bool) :
    (addWorker s name email).history = s.history
    ∧ (editWorker s wid name email).history = s.history
    ∧ (deleteWorker s wid).history = s.history
    ∧ (addHouse s hname).history = s.history
    ∧ (editHouse s hid hname).history = s.history
    ∧ (deleteHouse s hid).history = s.history
    ∧ (∃ t, (sendAssignments s cw sels dateStr now emailOk).1.history = s.history ++ t)
    ∧ (sendAssignments s cw sels dateStr now true).1
        = (sendAssignments s cw sels dateStr now false).1 := by
  refine ⟨rfl, rfl, rfl, rfl, rfl, rfl, ?_, ?_⟩
  · match cw, sels with
    | none, _ => exact ⟨[], by simp [sendAssignments]⟩
    | some w, [] => exact ⟨[], by simp [sendAssignments]⟩
    | some w, sel :: rest =>
      refine ⟨insertedRecords s.nextHistoryId w.id (sel :: rest) dateStr now, ?_⟩
      have hsave : (sendAssignments s (some w) (sel :: rest) dateStr now emailOk).1
          = saveAssignmentsToDb s w.id (sel :: rest) dateStr now := by
        cases emailOk <;> rfl
      rw [hsave, saveAssignmentsToDb_eq]
  · cases cw with
    | none => rfl
    | some w =>
      cases sels with
      | nil => rfl
      | cons a t => rfl

/-- Counterexample for C9 as stated: initializing a legacy store updates
its existing history row in place (same row count, changed contents — the
`email_sent` value of the pre-existing row goes from NULL to 1). -/
theorem c9_counterexample :
    ((initializeDatabase c9LegacyStore none).1.history.length
        = c9LegacyStore.history.length)
    ∧ (initializeDatabase c9LegacyStore none).1.history ≠ c9LegacyStore.history
    ∧ ((initializeDatabase c9LegacyStore none).1.history.map (fun r => r.email_sent))
        = [some true]
    ∧ (c9LegacyStore.history.map (fun r => r.email_sent)) = [none] := by
  refine ⟨?_, ?_, ?_, ?_⟩ <;> decide

/-! ### Claim C10 -/

theorem joinRecord_deleteWorker (s : Store) (wid : Nat) (r : AssignmentRecord)
    (h : r.worker_id = wid) : joinRecord (deleteWorker s wid) r = none := by
  have hfind : (deleteWorker s wid).workers.find? (fun w => w.id == r.worker_id) = none := by
    rw [List.find?_eq_none]
    intro w hw
    simp only [deleteWorker, List.mem_filter, bne_iff_ne] at hw
    simp only [beq_iff_eq, h]
    exact hw.2
  unfold joinRecord
  rw [hfind]

theorem joinRecord_deleteHouse (s : Store) (hid : Nat) (r : AssignmentRecord)
    (h : r.house_id = hid) : joinRecord (deleteHouse s hid) r = none := by
  have hfind : (deleteHouse s hid).houses.find? (fun x => x.id == r.house_id) = none := by
    rw [List.find?_eq_none]
    intro x hx
    simp only [deleteHouse, List.mem_filter, bne_iff_ne] at hx
    simp only [beq_iff_eq, h]
    exact hx.2
  unfold joinRecord
  simp only [hfind]
  cases (deleteHouse s hid).workers.find? (fun w => w.id == r.worker_id) <;> rfl

/-- C10: deleting a worker or a house leaves every persisted history row in
place, and the history projection of the resulting store is the same
filterMap in which every record referencing the deleted id yields no output
row (the inner joins drop it); the history view and the export are built
from exactly that projection, so the referencing rows are omitted from
both. -/
theorem c10_deleted_references_omitted (s : Store) (wid hid : Nat) :
    (deleteWorker s wid).history = s.history
    ∧ (deleteHouse s hid).history = s.history
    ∧ loadHistoryRows (deleteWorker s wid)
        = (sortHistoryDesc s.history).filterMap
            (fun r => if r.worker_id = wid then none else joinRecord (deleteWorker s wid) r)
    ∧ loadHistoryRows (deleteHouse s hid)
        = (sortHistoryDesc s.history).filterMap
            (fun r => if r.house_id = hid then none else joinRecord (deleteHouse s hid) r)
    ∧ loadHistoryData (deleteWorker s wid)
        = ((sortHistoryDesc s.history).filterMap
            (fun r => if r.worker_id = wid then none
              else joinRecord (deleteWorker s wid) r)).map formatJoined
    ∧ exportHistory (deleteWorker s wid)
        = historyHeader :: ((sortHistoryDesc s.history).filterMap
            (fun r => if r.worker_id = wid then none
              else joinRecord (deleteWorker s wid) r)).map formatJoined := by
  have h3 : loadHistoryRows (deleteWorker s wid)
      = (sortHistoryDesc s.history).filterMap
          (fun r => if r.worker_id = wid then none
            else joinRecord (deleteWorker s wid) r) := by
    apply filterMap_congr_on
    intro r _
    by_cases h : r.worker_id = wid
    · rw [if_pos h, joinRecord_deleteWorker s wid r h]
    · rw [if_neg h]
  have h4 : loadHistoryRows (deleteHouse s hid)
      = (sortHistoryDesc s.history).filterMap
          (fun r => if r.house_id = hid then none
            else joinRecord (deleteHouse s hid) r) := by
    apply filterMap_congr_on
    intro r _
    by_cases h : r.house_id = hid
    · rw [if_pos h, joinRecord_deleteHouse s hid r h]
    · rw [if_neg h]
  refine ⟨rfl, rfl, h3, h4, ?_, ?_⟩
  · rw [loadHistoryData, h3]
  · rw [exportHistory, loadHistoryData, h3]

end TaskMeister
